import Mathlib

/-!
Verification of the Jira weekly filter report script (`jira_report.py`).

The script has three stages: `fetch_jira_issues` (two HTTP calls against the
tracking service), `build_html_report` (pure HTML string construction) and
`send_email` (SMTP dispatch).  This file gives a shallow embedding of the
first two stages and of the recipient-list configuration parsing, and proves
the rendering and fetching properties stated in the specification.

Modelling conventions:
- JSON objects are structures whose fields are `Option`-valued; `none` plays
  the role of an absent (or, for assignee/priority, JSON-null) key, matching
  the script's `dict.get` / `or {}` access patterns.
- The ambient configuration (`JIRA_SITE`, `JIRA_FILTER_ID`) and the current
  date string (`datetime.now().strftime("%B %d, %Y")`) are passed as explicit
  parameters.
- The two HTTP responses consumed by `fetch_jira_issues` are inputs, and the
  embedding additionally returns the list of HTTP requests the script issues,
  in order, so that "the search call is never made" is expressible.
- Python `s[:n]` slicing and `s.split(",")` are embedded at the level of the
  underlying character list.
-/

set_option maxRecDepth 4000

namespace JiraReport

/-- JSON object under the `status` key of an issue: only `name` is read. -/
structure StatusJson where
  name : Option String
deriving Repr, DecidableEq

/-- JSON object under the `assignee` key: only `displayName` is read. -/
structure AssigneeJson where
  displayName : Option String
deriving Repr, DecidableEq

/-- JSON object under the `priority` key: only `name` is read. -/
structure PriorityJson where
  name : Option String
deriving Repr, DecidableEq

/-- The `fields` object of an issue, restricted to the keys the script reads
(`summary,status,assignee,priority,updated`; `issuetype` is requested from the
service but never read by the renderer). -/
structure IssueFields where
  summary : Option String
  status : Option StatusJson
  assignee : Option AssigneeJson
  priority : Option PriorityJson
  updated : Option String
deriving Repr, DecidableEq

/-- An issue as consumed by `build_html_report`: `issue["key"]` and
`issue["fields"]` are mandatory accesses in the script. -/
structure Issue where
  key : String
  fields : IssueFields
deriving Repr, DecidableEq

/-- Python string slicing `s[:n]`: the first `n` code points. -/
def pySlice (s : String) (n : Nat) : String := String.mk (s.data.take n)

/-- Python `s.split(sep)` for a one-character separator: split on every
occurrence, keep empty segments, no trimming. -/
def pySplit (s : String) (sep : Char) : List String :=
  (s.data.splitOn sep).map String.mk

/-- Line 24: `RECIPIENT_EMAILS = os.environ["RECIPIENT_EMAILS"].split(",")`,
as a function of the environment variable's string value. -/
def RECIPIENT_EMAILS (env : String) : List String := pySplit env ','

/-- Line 62: `summary = fields.get("summary", "N/A")`. -/
def summary_of (fields : IssueFields) : String := fields.summary.getD "N/A"

/-- Line 63: `status = fields.get("status", {}).get("name", "N/A")`. -/
def status_of (fields : IssueFields) : String :=
  match fields.status with
  | none => "N/A"
  | some st => st.name.getD "N/A"

/-- Line 64: `assignee = (fields.get("assignee") or {}).get("displayName", "Unassigned")`;
an absent key and a JSON-null value both land in the `or {}` branch. -/
def assignee_of (fields : IssueFields) : String :=
  match fields.assignee with
  | none => "Unassigned"
  | some a => a.displayName.getD "Unassigned"

/-- Line 65: `priority = (fields.get("priority") or {}).get("name", "N/A")`. -/
def priority_of (fields : IssueFields) : String :=
  match fields.priority with
  | none => "N/A"
  | some p => p.name.getD "N/A"

/-- Line 66: `updated = fields.get("updated", "")[:10]`. -/
def updated_of (fields : IssueFields) : String := pySlice (fields.updated.getD "") 10

/-- Lines 69-72: the `status_colors` dict, as a partial lookup. -/
def status_colors (status : String) : Option String :=
  if status = "To Do" then some "#6b7280"
  else if status = "In Progress" then some "#2563eb"
  else if status = "Done" then some "#16a34a"
  else if status = "Blocked" then some "#dc2626"
  else if status = "In Review" then some "#d97706"
  else none

/-- Line 73: `status_color = status_colors.get(status, "#6b7280")`. -/
def status_color_of (status : String) : String :=
  (status_colors status).getD "#6b7280"

/-- Literal chunk of the per-issue row template before `{issue_url}`. -/
def rowChunk1 : String :=
  "\n        <tr>\n            <td style=\"padding:10px 12px; border-bottom:1px solid #e5e7eb;\">\n                <a href=\""

/-- Literal chunk between `{issue_url}` and `{key}`. -/
def rowChunk2 : String :=
  "\" style=\"color:#2563eb; font-weight:600; text-decoration:none;\">"

/-- Literal chunk between `{key}` and `{summary}`. -/
def rowChunk3 : String :=
  "</a>\n            </td>\n            <td style=\"padding:10px 12px; border-bottom:1px solid #e5e7eb;\">"

/-- Literal chunk between `{summary}` and `{status_color}`. -/
def rowChunk4 : String :=
  "</td>\n            <td style=\"padding:10px 12px; border-bottom:1px solid #e5e7eb;\">\n                <span style=\"background:"

/-- Literal chunk between `{status_color}` and `{status}`. -/
def rowChunk5 : String :=
  "; color:#fff; padding:2px 8px; border-radius:12px; font-size:12px;\">"

/-- Literal chunk between `{status}` and `{assignee}`. -/
def rowChunk6 : String :=
  "</span>\n            </td>\n            <td style=\"padding:10px 12px; border-bottom:1px solid #e5e7eb;\">"

/-- Literal chunk between `{assignee}` and `{priority}`, and again between
`{priority}` and `{updated}` (the two chunks are identical in the source). -/
def rowChunk7 : String :=
  "</td>\n            <td style=\"padding:10px 12px; border-bottom:1px solid #e5e7eb;\">"

/-- Literal chunk of the row template after `{updated}`. -/
def rowChunk9 : String :=
  "</td>\n        </tr>\n        "

/-- Lines 59-88: the body of the `for issue in issues` loop, i.e. the string
appended to `rows` for one issue (the row f-string with its interpolations). -/
def render_row (JIRA_SITE : String) (issue : Issue) : String :=
  let key := issue.key
  let fields := issue.fields
  let summary := summary_of fields
  let status := status_of fields
  let assignee := assignee_of fields
  let priority := priority_of fields
  let updated := updated_of fields
  let issue_url := JIRA_SITE ++ "/browse/" ++ key
  let status_color := status_color_of status
  rowChunk1 ++ issue_url ++ rowChunk2 ++ key ++ rowChunk3 ++ summary ++ rowChunk4
    ++ status_color ++ rowChunk5 ++ status ++ rowChunk6 ++ assignee ++ rowChunk7
    ++ priority ++ rowChunk7 ++ updated ++ rowChunk9

/-- Literal chunk of the document template before `{filter_name}`. -/
def docChunk1 : String :=
  "\n    <html><body style=\"font-family: Arial, sans-serif; background:#f9fafb; margin:0; padding:20px;\">\n    <div style=\"max-width:900px; margin:auto; background:#fff; border-radius:8px; box-shadow:0 2px 8px rgba(0,0,0,0.08); overflow:hidden;\">\n        <div style=\"background:#0052cc; padding:24px 32px;\">\n            <h1 style=\"color:#fff; margin:0; font-size:22px;\">📋 "

/-- Literal chunk between `{filter_name}` and `{today}`. -/
def docChunk2 : String :=
  "</h1>\n            <p style=\"color:#b3d4ff; margin:6px 0 0;\">"

/-- Literal chunk between `{today}` and `{total}`. -/
def docChunk3 : String := " &nbsp;·&nbsp; "

/-- Literal chunk between `{total}` and `{rows}` (through `<tbody>`). -/
def docChunk4 : String :=
  " issue(s) found</p>\n        </div>\n        <div style=\"padding:24px 32px;\">\n            <table style=\"width:100%; border-collapse:collapse; font-size:14px;\">\n                <thead>\n                    <tr style=\"background:#f3f4f6;\">\n                        <th style=\"padding:10px 12px; text-align:left; color:#374151;\">Key</th>\n                        <th style=\"padding:10px 12px; text-align:left; color:#374151;\">Summary</th>\n                        <th style=\"padding:10px 12px; text-align:left; color:#374151;\">Status</th>\n                        <th style=\"padding:10px 12px; text-align:left; color:#374151;\">Assignee</th>\n                        <th style=\"padding:10px 12px; text-align:left; color:#374151;\">Priority</th>\n                        <th style=\"padding:10px 12px; text-align:left; color:#374151;\">Updated</th>\n                    </tr>\n                </thead>\n                <tbody>"

/-- Suffix of `docChunk4` after its leading `" issue(s) found"` text; used to
exhibit the `"{total} issue(s) found"` phrase as a contiguous substring. -/
def docChunk4Rest : String :=
  "</p>\n        </div>\n        <div style=\"padding:24px 32px;\">\n            <table style=\"width:100%; border-collapse:collapse; font-size:14px;\">\n                <thead>\n                    <tr style=\"background:#f3f4f6;\">\n                        <th style=\"padding:10px 12px; text-align:left; color:#374151;\">Key</th>\n                        <th style=\"padding:10px 12px; text-align:left; color:#374151;\">Summary</th>\n                        <th style=\"padding:10px 12px; text-align:left; color:#374151;\">Status</th>\n                        <th style=\"padding:10px 12px; text-align:left; color:#374151;\">Assignee</th>\n                        <th style=\"padding:10px 12px; text-align:left; color:#374151;\">Priority</th>\n                        <th style=\"padding:10px 12px; text-align:left; color:#374151;\">Updated</th>\n                    </tr>\n                </thead>\n                <tbody>"

/-- Literal chunk between `{rows}` and the conditional no-issues block. -/
def docChunk5 : String := "</tbody>\n            </table>\n            "

/-- Line 111: the paragraph interpolated when the issue list is empty. -/
def no_issues_message : String :=
  "<p style=\x27color:#6b7280; text-align:center; margin-top:20px;\x27>No issues found in this filter.</p>"

/-- Literal chunk between the conditional block and `{JIRA_SITE}`. -/
def docChunk6 : String :=
  "\n        </div>\n        <div style=\"background:#f3f4f6; padding:16px 32px; font-size:12px; color:#9ca3af; text-align:center;\">\n            Auto-generated by Jira Weekly Report &nbsp;·&nbsp; <a href=\""

/-- Literal chunk of the document template after `{JIRA_SITE}`. -/
def docChunk7 : String :=
  "\" style=\"color:#2563eb;\">Open Jira</a>\n        </div>\n    </div>\n    </body></html>\n    "

/-- Lines 54-119: `build_html_report(issues, filter_name, total)`.  `JIRA_SITE`
is the module-level configuration value and `today` stands for
`datetime.now().strftime("%B %d, %Y")`, the clock reading taken on line 56. -/
def build_html_report (JIRA_SITE today : String) (issues : List Issue)
    (filter_name : String) (total : Nat) : String :=
  let rows := issues.foldl (fun acc issue => acc ++ render_row JIRA_SITE issue) ""
  docChunk1 ++ filter_name ++ docChunk2 ++ today ++ docChunk3 ++ toString total
    ++ docChunk4 ++ rows ++ docChunk5
    ++ (if issues.isEmpty then no_issues_message else "")
    ++ docChunk6 ++ JIRA_SITE ++ docChunk7

/-- An HTTP response as seen by the script: a status code and a parsed JSON
body (the `.json()` value). -/
structure HttpResponse (β : Type) where
  status : Nat
  body : β
deriving Repr

/-- JSON body of the filter-lookup response; the script reads `jql` and
`name`. -/
structure FilterJson where
  jql : Option String
  name : Option String
deriving Repr

/-- JSON body of the search response; the script reads `issues` and `total`. -/
structure SearchJson where
  issues : Option (List Issue)
  total : Option Nat
deriving Repr

/-- The error raised by `requests.Response.raise_for_status` (an HTTPError
carrying the offending status code). -/
structure HttpStatusError where
  status : Nat
deriving Repr, DecidableEq

/-- Semantics of `requests.Response.raise_for_status()`: raises exactly for
status codes in `[400, 600)` (client and server errors), and is a no-op for
every other code. -/
def raise_for_status (status : Nat) : Except HttpStatusError Unit :=
  if 400 ≤ status ∧ status < 600 then Except.error ⟨status⟩ else Except.ok ()

/-- An outbound HTTP request issued by `fetch_jira_issues`, with the request
data the script supplies. -/
inductive JiraRequest where
  | filterLookup (url : String)
  | search (url : String) (jql : String) (maxResults : Nat) (fields : String)
deriving Repr, DecidableEq

/-- The fixed `fields` query parameter of the search request (line 45). -/
def searchFields : String := "summary,status,assignee,priority,updated,issuetype"

/-- Lines 31-51: `fetch_jira_issues()`.  The two HTTP responses are inputs
(the script's network effects); the result pairs the returned value (or the
exception propagated by `raise_for_status`) with the list of HTTP requests
actually issued, in program order. -/
def fetch_jira_issues (JIRA_SITE JIRA_FILTER_ID : String)
    (filter_response : HttpResponse FilterJson)
    (issues_response : HttpResponse SearchJson) :
    Except HttpStatusError (List Issue × String × Nat) × List JiraRequest :=
  let url := JIRA_SITE ++ "/rest/api/3/filter/" ++ JIRA_FILTER_ID
  match raise_for_status filter_response.status with
  | Except.error e => (Except.error e, [JiraRequest.filterLookup url])
  | Except.ok _ =>
    let jql := filter_response.body.jql.getD ""
    let filter_name := filter_response.body.name.getD "Jira Filter"
    let search_url := JIRA_SITE ++ "/rest/api/3/search"
    let issued := [JiraRequest.filterLookup url,
                   JiraRequest.search search_url jql 100 searchFields]
    match raise_for_status issues_response.status with
    | Except.error e => (Except.error e, issued)
    | Except.ok _ =>
      (Except.ok (issues_response.body.issues.getD [], filter_name,
                  issues_response.body.total.getD 0), issued)

/-- Containment of `needle` in `hay` as substring, at the character level. -/
def StrContains (hay needle : String) : Prop := needle.data <:+: hay.data

instance (hay needle : String) : Decidable (StrContains hay needle) := by
  unfold StrContains; exact inferInstance

/-! Basic string lemmas used throughout. -/

theorem strData_append (a b : String) : (a ++ b).data = a.data ++ b.data := by
  cases a; cases b; rfl

theorem strEq_of_data {a b : String} (h : a.data = b.data) : a = b := by
  cases a; cases b; exact congrArg String.mk h

theorem strAppend_assoc (a b c : String) : a ++ b ++ c = a ++ (b ++ c) := by
  apply strEq_of_data
  simp [strData_append]

theorem strAppend_empty (a : String) : a ++ "" = a := by
  apply strEq_of_data
  simp [strData_append]

theorem strEmpty_append (a : String) : "" ++ a = a := by
  apply strEq_of_data
  simp [strData_append]

theorem strAppend_cancel_left {a b c : String} (h : a ++ b = a ++ c) : b = c := by
  apply strEq_of_data
  have hd := congrArg String.data h
  simp only [strData_append] at hd
  exact List.append_cancel_left hd

theorem strAppend_cancel_right {a b c : String} (h : a ++ c = b ++ c) : a = b := by
  apply strEq_of_data
  have hd := congrArg String.data h
  simp only [strData_append] at hd
  exact List.append_cancel_right hd

theorem strJoin_foldl (l : List String) (acc : String) :
    l.foldl (fun a s => a ++ s) acc = acc ++ String.join l := by
  induction l generalizing acc with
  | nil => simp [String.join, strAppend_empty]
  | cons s rest ih =>
    show List.foldl _ (acc ++ s) rest = _
    rw [ih]
    have : String.join (s :: rest) = s ++ String.join rest := by
      show List.foldl _ ("" ++ s) rest = _
      rw [ih, strEmpty_append]
    rw [this, strAppend_assoc]

theorem strContains_refl (s : String) : StrContains s s := ⟨[], [], by simp⟩

theorem strContains_right {hay n : String} (a : String) (h : StrContains hay n) :
    StrContains (a ++ hay) n := by
  obtain ⟨s, t, hst⟩ := h
  exact ⟨a.data ++ s, t, by rw [strData_append, ← hst]; simp⟩

theorem strContains_left {hay n : String} (h : StrContains hay n) (b : String) :
    StrContains (hay ++ b) n := by
  obtain ⟨s, t, hst⟩ := h
  exact ⟨s, t ++ b.data, by rw [strData_append, ← hst]; simp⟩

theorem strContains_factor (pre post : String) {hay needle : String}
    (h : hay = pre ++ needle ++ post) : StrContains hay needle := by
  refine ⟨pre.data, post.data, ?_⟩
  rw [h]
  simp [strData_append, List.append_assoc]

theorem strMk_append (a b : List Char) :
    String.mk a ++ String.mk b = String.mk (a ++ b) := rfl

theorem strJoin_cons (s : String) (l : List String) :
    String.join (s :: l) = s ++ String.join l := by
  show List.foldl (fun r s => r ++ s) ("" ++ s) l = s ++ String.join l
  rw [strJoin_foldl, strEmpty_append]

theorem strJoin_singleton (s : String) : String.join [s] = s := by
  rw [strJoin_cons]
  show s ++ "" = s
  exact strAppend_empty s

theorem strJoin_map_mk : ∀ ll : List (List Char),
    String.join (ll.map String.mk) = String.mk ll.flatten
  | [] => rfl
  | l :: ls => by
    rw [List.map_cons, strJoin_cons, strJoin_map_mk ls, strMk_append]
    rfl

theorem intersperse_map_mk (sep : List Char) : ∀ ll : List (List Char),
    List.intersperse (String.mk sep) (ll.map String.mk) =
      (List.intersperse sep ll).map String.mk
  | [] => rfl
  | [_] => rfl
  | l₁ :: l₂ :: ls => by
    have ih := intersperse_map_mk sep (l₂ :: ls)
    simp only [List.map_cons, List.intersperse_cons₂] at ih ⊢
    rw [ih]

theorem docChunk4_seam : docChunk4 = " issue(s) found" ++ docChunk4Rest := rfl

/-! Factorizations of the renderer output, proved from the definitions. -/

theorem render_row_parts (JIRA_SITE : String) (issue : Issue) :
    render_row JIRA_SITE issue =
      rowChunk1 ++ (JIRA_SITE ++ "/browse/" ++ issue.key) ++ rowChunk2 ++ issue.key
        ++ rowChunk3 ++ summary_of issue.fields ++ rowChunk4
        ++ status_color_of (status_of issue.fields) ++ rowChunk5
        ++ status_of issue.fields ++ rowChunk6 ++ assignee_of issue.fields
        ++ rowChunk7 ++ priority_of issue.fields ++ rowChunk7
        ++ updated_of issue.fields ++ rowChunk9 := rfl

theorem build_html_report_parts (JIRA_SITE today : String) (issues : List Issue)
    (filter_name : String) (total : Nat) :
    build_html_report JIRA_SITE today issues filter_name total =
      docChunk1 ++ filter_name ++ docChunk2 ++ today ++ docChunk3 ++ toString total
        ++ docChunk4 ++ String.join (issues.map (render_row JIRA_SITE)) ++ docChunk5
        ++ (if issues.isEmpty then no_issues_message else "")
        ++ docChunk6 ++ JIRA_SITE ++ docChunk7 := by
  unfold build_html_report
  have hrows : issues.foldl (fun acc issue => acc ++ render_row JIRA_SITE issue) "" =
      String.join (issues.map (render_row JIRA_SITE)) := by
    rw [← List.foldl_map (render_row JIRA_SITE) (fun a s => a ++ s)]
    rw [strJoin_foldl, strEmpty_append]
  rw [hrows]

/-! Claim theorems. -/

/-- C1: `build_html_report` emits exactly one table row per input issue, in
input order: the document is a fixed scaffolding around the concatenation of
the per-issue row renderings `render_row`, taken over `issues.map` — one row
string per issue, concatenated in list order with nothing reordered, dropped
or added — and the row list has exactly the length of the input list.  Each
row string opens with the single `<tr>` literal of `rowChunk1` and closes with
the `</tr>` of `rowChunk9`. -/
theorem one_row_per_issue_in_input_order (JIRA_SITE today : String)
    (issues : List Issue) (filter_name : String) (total : Nat) :
    build_html_report JIRA_SITE today issues filter_name total =
      docChunk1 ++ filter_name ++ docChunk2 ++ today ++ docChunk3 ++ toString total
        ++ docChunk4 ++ String.join (issues.map (render_row JIRA_SITE)) ++ docChunk5
        ++ (if issues.isEmpty then no_issues_message else "")
        ++ docChunk6 ++ JIRA_SITE ++ docChunk7
    ∧ (issues.map (render_row JIRA_SITE)).length = issues.length := by
  exact ⟨build_html_report_parts JIRA_SITE today issues filter_name total,
         List.length_map issues (render_row JIRA_SITE)⟩

/-- C3: an issue with an absent (or null) assignee renders its assignee cell
as the literal `"Unassigned"`, and an absent (or null) priority renders its
priority cell as the literal `"N/A"`; in both cases the rendered value occurs
in the emitted row. -/
theorem missing_assignee_priority_defaults (JIRA_SITE : String) (issue : Issue) :
    (issue.fields.assignee = none →
      assignee_of issue.fields = "Unassigned"
        ∧ StrContains (render_row JIRA_SITE issue) "Unassigned")
    ∧ (issue.fields.priority = none →
      priority_of issue.fields = "N/A"
        ∧ StrContains (render_row JIRA_SITE issue) "N/A") := by
  constructor
  · intro h
    have ha : assignee_of issue.fields = "Unassigned" := by
      unfold assignee_of
      rw [h]
    refine ⟨ha, ?_⟩
    rw [render_row_parts, ha]
    apply strContains_left
    apply strContains_left
    apply strContains_left
    apply strContains_left
    apply strContains_left
    apply strContains_right
    exact strContains_refl _
  · intro h
    have hp : priority_of issue.fields = "N/A" := by
      unfold priority_of
      rw [h]
    refine ⟨hp, ?_⟩
    rw [render_row_parts, hp]
    apply strContains_left
    apply strContains_left
    apply strContains_left
    apply strContains_right
    exact strContains_refl _

/-- C3 witness: an issue with both assignee and priority absent, evaluated
concretely. -/
theorem missing_assignee_priority_defaults_witness :
    (assignee_of ⟨some "Fix login bug", some ⟨some "To Do"⟩, none, none,
        some "2024-03-15T10:22:00.000Z"⟩ = "Unassigned"
      ∧ StrContains
          (render_row "https://x.atlassian.net"
            ⟨"PROJ-1", ⟨some "Fix login bug", some ⟨some "To Do"⟩, none, none,
              some "2024-03-15T10:22:00.000Z"⟩⟩) "Unassigned")
    ∧ (priority_of ⟨some "Fix login bug", some ⟨some "To Do"⟩, none, none,
        some "2024-03-15T10:22:00.000Z"⟩ = "N/A"
      ∧ StrContains
          (render_row "https://x.atlassian.net"
            ⟨"PROJ-1", ⟨some "Fix login bug", some ⟨some "To Do"⟩, none, none,
              some "2024-03-15T10:22:00.000Z"⟩⟩) "N/A") := by
  exact ⟨(missing_assignee_priority_defaults "https://x.atlassian.net"
            ⟨"PROJ-1", ⟨some "Fix login bug", some ⟨some "To Do"⟩, none, none,
              some "2024-03-15T10:22:00.000Z"⟩⟩).1 rfl,
         (missing_assignee_priority_defaults "https://x.atlassian.net"
            ⟨"PROJ-1", ⟨some "Fix login bug", some ⟨some "To Do"⟩, none, none,
              some "2024-03-15T10:22:00.000Z"⟩⟩).2 rfl⟩

/-- C4: the rendered updated value is the first 10 characters of the issue's
updated timestamp (Python `[:10]` slicing, embedded as `pySlice`), the whole
string when it is shorter than 10 characters, and in particular the ISO-8601
timestamp `"2024-03-15T10:22:00.000Z"` renders as `"2024-03-15"`. -/
theorem updated_truncated_to_ten_chars (fields : IssueFields) (s : String)
    (h : fields.updated = some s) :
    updated_of fields = pySlice s 10
    ∧ (s.length ≤ 10 → updated_of fields = s)
    ∧ pySlice "2024-03-15T10:22:00.000Z" 10 = "2024-03-15" := by
  have hu : updated_of fields = pySlice s 10 := by
    unfold updated_of
    rw [h]
    rfl
  refine ⟨hu, ?_, by decide⟩
  intro hlen
  rw [hu]
  unfold pySlice
  rw [List.take_of_length_le hlen]

/-- C4 witness: the specification's example timestamp, evaluated concretely,
plus a short-string instance. -/
theorem updated_truncated_to_ten_chars_witness :
    (updated_of ⟨none, none, none, none, some "2024-03-15T10:22:00.000Z"⟩ =
        pySlice "2024-03-15T10:22:00.000Z" 10
      ∧ pySlice "2024-03-15T10:22:00.000Z" 10 = "2024-03-15")
    ∧ updated_of ⟨none, none, none, none, some "short"⟩ = "short" := by
  refine ⟨⟨(updated_truncated_to_ten_chars _ "2024-03-15T10:22:00.000Z" rfl).1,
           (updated_truncated_to_ten_chars
              ⟨none, none, none, none, some "2024-03-15T10:22:00.000Z"⟩
              "2024-03-15T10:22:00.000Z" rfl).2.2⟩,
         (updated_truncated_to_ten_chars ⟨none, none, none, none, some "short"⟩
            "short" rfl).2.1 (by decide)⟩

/-- C5: a status name outside the five-entry color table gets the default
neutral color `"#6b7280"`, the five table entries get their mapped colors, and
rendering an issue with any status still produces its row, with the computed
badge color occurring in it (no error, no omission). -/
theorem unknown_status_default_color (s : String) (JIRA_SITE : String)
    (issue : Issue)
    (h : s ∉ ["To Do", "In Progress", "Done", "Blocked", "In Review"]) :
    status_color_of s = "#6b7280"
    ∧ status_color_of "To Do" = "#6b7280"
    ∧ status_color_of "In Progress" = "#2563eb"
    ∧ status_color_of "Done" = "#16a34a"
    ∧ status_color_of "Blocked" = "#dc2626"
    ∧ status_color_of "In Review" = "#d97706"
    ∧ StrContains (render_row JIRA_SITE issue)
        (status_color_of (status_of issue.fields)) := by
  simp only [List.mem_cons, List.not_mem_nil, or_false, not_or] at h
  obtain ⟨h1, h2, h3, h4, h5⟩ := h
  refine ⟨?_, by decide, by decide, by decide, by decide, by decide, ?_⟩
  · unfold status_color_of status_colors
    rw [if_neg h1, if_neg h2, if_neg h3, if_neg h4, if_neg h5]
    rfl
  · rw [render_row_parts]
    apply strContains_left
    apply strContains_left
    apply strContains_left
    apply strContains_left
    apply strContains_left
    apply strContains_left
    apply strContains_left
    apply strContains_left
    apply strContains_left
    apply strContains_right
    exact strContains_refl _

/-- C5 witness: the unrecognized status `"Weird"` on a concrete issue. -/
theorem unknown_status_default_color_witness :
    status_color_of "Weird" = "#6b7280"
    ∧ StrContains
        (render_row "https://x.atlassian.net"
          ⟨"PROJ-2", ⟨some "Task", some ⟨some "Weird"⟩, none, none, none⟩⟩)
        (status_color_of
          (status_of ⟨some "Task", some ⟨some "Weird"⟩, none, none, none⟩)) := by
  exact ⟨(unknown_status_default_color "Weird" "https://x.atlassian.net"
            ⟨"PROJ-2", ⟨some "Task", some ⟨some "Weird"⟩, none, none, none⟩⟩
            (by decide)).1,
         (unknown_status_default_color "Weird" "https://x.atlassian.net"
            ⟨"PROJ-2", ⟨some "Task", some ⟨some "Weird"⟩, none, none, none⟩⟩
            (by decide)).2.2.2.2.2.2⟩

/-- C2 counterexample: the message-absence half of the claim is false.  For
the non-empty issue list whose single issue has the no-issues paragraph as its
summary text, the rendered document does contain the literal
`"No issues found in this filter."`, because `build_html_report` interpolates
field text verbatim. -/
theorem nonempty_report_message_injection :
    ([(⟨"HACK-1", ⟨some no_issues_message, none, none, none, none⟩⟩ : Issue)] ≠
        ([] : List Issue))
    ∧ StrContains
        (build_html_report "https://x.atlassian.net" "March 15, 2024"
          [⟨"HACK-1", ⟨some no_issues_message, none, none, none, none⟩⟩]
          "Weekly" 1)
        "No issues found in this filter." := by
  refine ⟨by simp, ?_⟩
  rw [build_html_report_parts]
  apply strContains_left
  apply strContains_left
  apply strContains_left
  apply strContains_left
  apply strContains_left
  apply strContains_right
  rw [List.map_cons, List.map_nil, strJoin_singleton, render_row_parts]
  apply strContains_left
  apply strContains_left
  apply strContains_left
  apply strContains_left
  apply strContains_left
  apply strContains_left
  apply strContains_left
  apply strContains_left
  apply strContains_left
  apply strContains_left
  apply strContains_left
  apply strContains_right
  show StrContains no_issues_message "No issues found in this filter."
  exact strContains_factor
    "<p style=\x27color:#6b7280; text-align:center; margin-top:20px;\x27>" "</p>" rfl

/-- C2 (amended): rendering the empty issue list produces a document that
contains the literal `"No issues found in this filter."` and an empty rows
region (zero issue table rows); for a non-empty list the renderer emits an
empty string in place of the conditional message block.  (The original claim's
stronger statement — that the message text is absent from the whole document
for every non-empty list — fails, because issue-supplied field text is
interpolated verbatim; see the counterexample.) -/
theorem no_issues_message_iff_empty (JIRA_SITE today : String)
    (issues : List Issue) (filter_name : String) (total : Nat) :
    (issues = [] →
      StrContains (build_html_report JIRA_SITE today issues filter_name total)
          "No issues found in this filter."
        ∧ String.join (issues.map (render_row JIRA_SITE)) = "")
    ∧ (issues ≠ [] →
        (if issues.isEmpty then no_issues_message else "") = "") := by
  constructor
  · rintro rfl
    constructor
    · rw [build_html_report_parts]
      have hif : (if ([] : List Issue).isEmpty then no_issues_message else "") =
          no_issues_message := rfl
      rw [hif]
      have hmsg : StrContains no_issues_message "No issues found in this filter." :=
        strContains_factor
          "<p style=\x27color:#6b7280; text-align:center; margin-top:20px;\x27>" "</p>" rfl
      apply strContains_left
      apply strContains_left
      apply strContains_left
      exact strContains_right _ hmsg
    · rfl
  · intro h
    cases issues with
    | nil => exact absurd rfl h
    | cons a l => rfl

/-- C2 witness: the empty list rendered concretely, and a concrete singleton
list for the non-empty half. -/
theorem no_issues_message_iff_empty_witness :
    (StrContains
        (build_html_report "https://x.atlassian.net" "March 15, 2024" [] "Weekly" 0)
        "No issues found in this filter."
      ∧ String.join (([] : List Issue).map (render_row "https://x.atlassian.net")) = "")
    ∧ (if ([(⟨"PROJ-1", ⟨none, none, none, none, none⟩⟩ : Issue)] : List Issue).isEmpty
        then no_issues_message else "") = "" :=
  ⟨(no_issues_message_iff_empty "https://x.atlassian.net" "March 15, 2024" []
      "Weekly" 0).1 rfl,
   (no_issues_message_iff_empty "https://x.atlassian.net" "March 15, 2024"
      [⟨"PROJ-1", ⟨none, none, none, none, none⟩⟩] "Weekly" 0).2 (by simp)⟩

/-- C6 counterexample: `build_html_report` is not a function of
`(issues, filter name, total)` alone — the clock reading interpolated into the
header (line 56, `datetime.now()`) also changes the output.  Two renderings
with identical issues, filter name and total but different generation dates
differ. -/
theorem report_depends_on_generation_date :
    build_html_report "https://x.atlassian.net" "January 01, 2026" [] "Weekly" 0 ≠
    build_html_report "https://x.atlassian.net" "January 02, 2026" [] "Weekly" 0 := by
  intro h
  rw [build_html_report_parts, build_html_report_parts] at h
  have h1 := strAppend_cancel_right h
  have h2 := strAppend_cancel_right h1
  have h3 := strAppend_cancel_right h2
  have h4 := strAppend_cancel_right h3
  have h5 := strAppend_cancel_right h4
  have h6 := strAppend_cancel_right h5
  have h7 := strAppend_cancel_right h6
  have h8 := strAppend_cancel_right h7
  have h9 := strAppend_cancel_right h8
  have hd : ("January 01, 2026" : String) = "January 02, 2026" :=
    strAppend_cancel_left h9
  exact absurd hd (by decide)

/-- C6 (amended): `build_html_report` is deterministic in its arguments
together with the ambient inputs it reads — the site configuration and the
generation-date clock reading: two calls agreeing on
`(site, date, issues, filter name, total)` produce equal HTML.  (The original
claim, determinism in `(issues, filter name, total)` alone, fails because the
output embeds the current date; see the counterexample.) -/
theorem report_deterministic_given_date
    (JIRA_SITE₁ today₁ : String) (issues₁ : List Issue) (fn₁ : String) (t₁ : Nat)
    (JIRA_SITE₂ today₂ : String) (issues₂ : List Issue) (fn₂ : String) (t₂ : Nat)
    (hsite : JIRA_SITE₁ = JIRA_SITE₂) (htoday : today₁ = today₂)
    (hissues : issues₁ = issues₂) (hfn : fn₁ = fn₂) (ht : t₁ = t₂) :
    build_html_report JIRA_SITE₁ today₁ issues₁ fn₁ t₁ =
    build_html_report JIRA_SITE₂ today₂ issues₂ fn₂ t₂ := by
  subst hsite htoday hissues hfn ht
  rfl

/-- C6 witness: two calls with equal concrete arguments agree. -/
theorem report_deterministic_given_date_witness :
    build_html_report "https://x.atlassian.net" "March 15, 2024" [] "Weekly" 0 =
    build_html_report "https://x.atlassian.net" "March 15, 2024" [] "Weekly" 0 :=
  report_deterministic_given_date "https://x.atlassian.net" "March 15, 2024" []
    "Weekly" 0 "https://x.atlassian.net" "March 15, 2024" [] "Weekly" 0
    rfl rfl rfl rfl rfl

/-- C7 counterexample: the claim's "non-success (non-2xx)" reading is false.
`requests.raise_for_status` raises only for status codes in `[400, 600)`, so a
`304` filter-lookup response — a non-2xx status — does not abort the run: the
fetch proceeds, issues the search request, and returns a result. -/
theorem lookup_redirect_status_not_aborted :
    ¬(200 ≤ (304 : Nat) ∧ (304 : Nat) < 300)
    ∧ (fetch_jira_issues "https://x.atlassian.net" "10001"
        ⟨304, ⟨some "project = X", some "Weekly"⟩⟩ ⟨200, ⟨some [], some 0⟩⟩).1 =
      Except.ok ([], "Weekly", 0)
    ∧ (fetch_jira_issues "https://x.atlassian.net" "10001"
        ⟨304, ⟨some "project = X", some "Weekly"⟩⟩ ⟨200, ⟨some [], some 0⟩⟩).2 =
      [JiraRequest.filterLookup "https://x.atlassian.net/rest/api/3/filter/10001",
       JiraRequest.search "https://x.atlassian.net/rest/api/3/search"
         "project = X" 100 searchFields] := by
  refine ⟨by decide, rfl, rfl⟩

/-- C7 (amended): if the filter-lookup response carries an error status (4xx
or 5xx — the codes `raise_for_status` raises for), `fetch_jira_issues`
propagates the error and the issued-request trace contains only the lookup
call: the search request is never made.  Conversely, for any other lookup
status the search request is issued. -/
theorem lookup_error_aborts_before_search (JIRA_SITE JIRA_FILTER_ID : String)
    (filter_response : HttpResponse FilterJson)
    (issues_response : HttpResponse SearchJson) :
    (400 ≤ filter_response.status ∧ filter_response.status < 600 →
      fetch_jira_issues JIRA_SITE JIRA_FILTER_ID filter_response issues_response =
        (Except.error ⟨filter_response.status⟩,
         [JiraRequest.filterLookup
            (JIRA_SITE ++ "/rest/api/3/filter/" ++ JIRA_FILTER_ID)]))
    ∧ (¬(400 ≤ filter_response.status ∧ filter_response.status < 600) →
      (fetch_jira_issues JIRA_SITE JIRA_FILTER_ID filter_response issues_response).2 =
        [JiraRequest.filterLookup
           (JIRA_SITE ++ "/rest/api/3/filter/" ++ JIRA_FILTER_ID),
         JiraRequest.search (JIRA_SITE ++ "/rest/api/3/search")
           (filter_response.body.jql.getD "") 100 searchFields]) := by
  constructor
  · intro h
    simp [fetch_jira_issues, raise_for_status, h]
  · intro h
    by_cases h2 : 400 ≤ issues_response.status ∧ issues_response.status < 600
    · simp [fetch_jira_issues, raise_for_status, h, h2]
    · simp [fetch_jira_issues, raise_for_status, h, h2]

/-- C7 witness: a 404 lookup aborts with only the lookup request issued; a 304
lookup—outside the error range—reaches the search request. -/
theorem lookup_error_aborts_before_search_witness :
    fetch_jira_issues "https://x.atlassian.net" "10001"
        ⟨404, ⟨some "project = X", some "Weekly"⟩⟩ ⟨200, ⟨some [], some 0⟩⟩ =
      (Except.error ⟨404⟩,
       [JiraRequest.filterLookup "https://x.atlassian.net/rest/api/3/filter/10001"])
    ∧ (fetch_jira_issues "https://x.atlassian.net" "10001"
        ⟨304, ⟨some "project = X", some "Weekly"⟩⟩ ⟨200, ⟨some [], some 0⟩⟩).2 =
      [JiraRequest.filterLookup "https://x.atlassian.net/rest/api/3/filter/10001",
       JiraRequest.search "https://x.atlassian.net/rest/api/3/search"
         "project = X" 100 searchFields] :=
  ⟨(lookup_error_aborts_before_search "https://x.atlassian.net" "10001"
      ⟨404, ⟨some "project = X", some "Weekly"⟩⟩ ⟨200, ⟨some [], some 0⟩⟩).1
      (by decide),
   (lookup_error_aborts_before_search "https://x.atlassian.net" "10001"
      ⟨304, ⟨some "project = X", some "Weekly"⟩⟩ ⟨200, ⟨some [], some 0⟩⟩).2
      (by decide)⟩

/-- C8: the recipient list is the `RECIPIENT_EMAILS` string split on `","`
with no trimming and no removal of empty segments — `"a@x.com,b@y.com"` gives
exactly the two recipients, surrounding whitespace survives, empty segments
survive, and in general the split is lossless (re-joining with `","` restores
the input, so nothing was trimmed or dropped). -/
theorem recipient_emails_split_on_comma (env : String) :
    RECIPIENT_EMAILS "a@x.com,b@y.com" = ["a@x.com", "b@y.com"]
    ∧ RECIPIENT_EMAILS " a@x.com , b@y.com " = [" a@x.com ", " b@y.com "]
    ∧ RECIPIENT_EMAILS "a@x.com,,b@y.com" = ["a@x.com", "", "b@y.com"]
    ∧ String.join (List.intersperse "," (RECIPIENT_EMAILS env)) = env := by
  refine ⟨by decide, by decide, by decide, ?_⟩
  show String.join (List.intersperse "," ((env.data.splitOn ',').map String.mk)) = env
  rw [show ("," : String) = String.mk [','] from rfl]
  rw [intersperse_map_mk [','] (env.data.splitOn ',')]
  rw [strJoin_map_mk]
  rw [show (List.intersperse [','] (env.data.splitOn ',')).flatten =
      List.intercalate [','] (env.data.splitOn ',') from rfl]
  rw [List.intercalate_splitOn]

/-- C9: the rendered header contains the filter name and the phrase
`"{total} issue(s) found"` as contiguous substrings, for every filter name and
total (in particular `"Sprint Board"` with total `0` shows `"Sprint Board"`
and `"0 issue(s) found"`). -/
theorem header_contains_filter_name_and_total (JIRA_SITE today : String)
    (issues : List Issue) (filter_name : String) (total : Nat) :
    StrContains (build_html_report JIRA_SITE today issues filter_name total)
      filter_name
    ∧ StrContains (build_html_report JIRA_SITE today issues filter_name total)
      (toString total ++ " issue(s) found") := by
  constructor
  · rw [build_html_report_parts]
    apply strContains_left
    apply strContains_left
    apply strContains_left
    apply strContains_left
    apply strContains_left
    apply strContains_left
    apply strContains_left
    apply strContains_left
    apply strContains_left
    apply strContains_left
    apply strContains_left
    apply strContains_right
    exact strContains_refl _
  · have hfac : build_html_report JIRA_SITE today issues filter_name total =
        (docChunk1 ++ filter_name ++ docChunk2 ++ today ++ docChunk3)
          ++ (toString total ++ " issue(s) found")
          ++ (docChunk4Rest ++ String.join (issues.map (render_row JIRA_SITE))
              ++ docChunk5 ++ (if issues.isEmpty then no_issues_message else "")
              ++ docChunk6 ++ JIRA_SITE ++ docChunk7) := by
      rw [build_html_report_parts, docChunk4_seam]
      apply strEq_of_data
      simp [strData_append, List.append_assoc]
    exact strContains_factor _ _ hfac

/-- C10: when the service's JSON bodies omit the expected keys and both calls
return non-error statuses, `fetch_jira_issues` substitutes the fixed defaults:
a missing `jql` becomes `""` in the search request, a missing filter `name`
becomes `"Jira Filter"`, a missing `issues` array becomes `[]`, and a missing
`total` becomes `0`. -/
theorem fetch_missing_keys_defaults (JIRA_SITE JIRA_FILTER_ID : String)
    (filter_response : HttpResponse FilterJson)
    (issues_response : HttpResponse SearchJson)
    (hf : ¬(400 ≤ filter_response.status ∧ filter_response.status < 600))
    (hs : ¬(400 ≤ issues_response.status ∧ issues_response.status < 600)) :
    (fetch_jira_issues JIRA_SITE JIRA_FILTER_ID filter_response issues_response).1 =
      Except.ok (issues_response.body.issues.getD [],
                 filter_response.body.name.getD "Jira Filter",
                 issues_response.body.total.getD 0)
    ∧ (filter_response.body.jql = none →
        (fetch_jira_issues JIRA_SITE JIRA_FILTER_ID filter_response issues_response).2 =
          [JiraRequest.filterLookup
             (JIRA_SITE ++ "/rest/api/3/filter/" ++ JIRA_FILTER_ID),
           JiraRequest.search (JIRA_SITE ++ "/rest/api/3/search") "" 100 searchFields])
    ∧ (filter_response.body.name = none →
        (fetch_jira_issues JIRA_SITE JIRA_FILTER_ID filter_response issues_response).1 =
          Except.ok (issues_response.body.issues.getD [], "Jira Filter",
                     issues_response.body.total.getD 0))
    ∧ (issues_response.body.issues = none →
        (fetch_jira_issues JIRA_SITE JIRA_FILTER_ID filter_response issues_response).1 =
          Except.ok ([], filter_response.body.name.getD "Jira Filter",
                     issues_response.body.total.getD 0))
    ∧ (issues_response.body.total = none →
        (fetch_jira_issues JIRA_SITE JIRA_FILTER_ID filter_response issues_response).1 =
          Except.ok (issues_response.body.issues.getD [],
                     filter_response.body.name.getD "Jira Filter", 0)) := by
  have base : (fetch_jira_issues JIRA_SITE JIRA_FILTER_ID filter_response
      issues_response).1 =
      Except.ok (issues_response.body.issues.getD [],
                 filter_response.body.name.getD "Jira Filter",
                 issues_response.body.total.getD 0) := by
    simp [fetch_jira_issues, raise_for_status, hf, hs]
  have tr : (fetch_jira_issues JIRA_SITE JIRA_FILTER_ID filter_response
      issues_response).2 =
      [JiraRequest.filterLookup (JIRA_SITE ++ "/rest/api/3/filter/" ++ JIRA_FILTER_ID),
       JiraRequest.search (JIRA_SITE ++ "/rest/api/3/search")
         (filter_response.body.jql.getD "") 100 searchFields] := by
    simp [fetch_jira_issues, raise_for_status, hf, hs]
  refine ⟨base, ?_, ?_, ?_, ?_⟩
  · intro h
    rw [tr, h]
    rfl
  · intro h
    rw [base, h]
    rfl
  · intro h
    rw [base, h]
    rfl
  · intro h
    rw [base, h]
    rfl

/-- C10 witness: both bodies entirely empty of the expected keys, statuses
200. -/
theorem fetch_missing_keys_defaults_witness :
    (fetch_jira_issues "https://x.atlassian.net" "10001"
        ⟨200, ⟨none, none⟩⟩ ⟨200, ⟨none, none⟩⟩).1 =
      Except.ok ([], "Jira Filter", 0)
    ∧ (fetch_jira_issues "https://x.atlassian.net" "10001"
        ⟨200, ⟨none, none⟩⟩ ⟨200, ⟨none, none⟩⟩).2 =
      [JiraRequest.filterLookup "https://x.atlassian.net/rest/api/3/filter/10001",
       JiraRequest.search "https://x.atlassian.net/rest/api/3/search" "" 100
         searchFields] :=
  ⟨(fetch_missing_keys_defaults "https://x.atlassian.net" "10001"
      ⟨200, ⟨none, none⟩⟩ ⟨200, ⟨none, none⟩⟩ (by decide) (by decide)).1,
   (fetch_missing_keys_defaults "https://x.atlassian.net" "10001"
      ⟨200, ⟨none, none⟩⟩ ⟨200, ⟨none, none⟩⟩ (by decide) (by decide)).2.1 rfl⟩

end JiraReport
